import Mathlib

/-!
Verification of the fungus-back transaction engine.

The definitions below are a shallow embedding of the TypeScript sources:
monetary values and quantities are rationals (JavaScript numbers used on
exact decimal inputs), `Math.round` is `jsRound`, Mongoose documents are
records in an explicit `Store` that is threaded through each operation,
and fallible service functions return `Except AppError`.  An `Except.error`
result models `session.abortTransaction()`: no store is produced, so
nothing is persisted.
-/

namespace Fungus

/-- Embedding of JavaScript `Math.round`: round half toward positive
infinity, i.e. `⌊x + 1/2⌋`. -/
def jsRound (x : ℚ) : ℤ := ⌊x + 1/2⌋

/-- Embedding of the JavaScript expression `v || dflt` applied to a
possibly-absent numeric field: an absent value (`none`) and the falsy
number `0` both fall back to the default. -/
def jsOrQ (v : Option ℚ) (dflt : ℚ) : ℚ :=
  match v with
  | none => dflt
  | some r => if r = 0 then dflt else r

/-- Transaction kinds, from `TransactionType` in `models/Transaction.ts`. -/
inductive TransactionType where
  | quotation
  | sale
  | purchase
deriving Repr, DecidableEq

/-- Transaction statuses, from `TransactionStatus` in `models/Transaction.ts`. -/
inductive TransactionStatus where
  | pending
  | approved
  | rejected
  | converted
  | received
  | invoiced
  | paid
deriving Repr, DecidableEq

/-- Error taxonomy of the services; each constructor corresponds to one
`throw new Error(...)` site (or a returned-null outcome modelled where the
source returns it). -/
inductive AppError where
  | documentTypeRequired
  | invalidDocumentType
  | itemsRequired
  | notFound
  | invalidState
  | illegalTransition (fromStatus toStatus : TransactionStatus)
  | insufficientStock
deriving Repr, DecidableEq

/-- Raw line item as supplied by the caller: `item` reference, `quantity`,
`unitPrice`, `discount` (the fields read by `calculateTransactionAmounts`). -/
structure RawItem where
  item : Nat
  quantity : ℚ
  unitPrice : ℚ
  discount : ℚ
deriving Repr, DecidableEq

/-- Processed line item as produced by `calculateTransactionAmounts` and
stored on the transaction. -/
structure ProcessedItem where
  itemId : Nat
  quantity : ℚ
  unitPrice : ℚ
  discount : ℚ
  subtotal : ℚ
deriving Repr, DecidableEq

/-- Result record of `calculateTransactionAmounts`. -/
structure CalcResult where
  processedItems : List ProcessedItem
  netAmount : ℚ
  taxAmount : ℚ
  totalAmount : ℚ
deriving Repr, DecidableEq

/-- Embedding of `calculateTransactionAmounts` (identical private function
in `quotationService.ts`, the sale service and `purchaseService.ts`).
An empty list short-circuits to all-zero amounts; the string `"boleta"`
selects the tax-inclusive branch and every other string falls into the
`else` (tax-exclusive, `"factura"`) branch, exactly as in the source.
Note that the source computes `taxAmount` and `totalAmount` from the
variable `netAmount` before the final `Math.round(netAmount)` is taken. -/
def calculateTransactionAmounts (items : List RawItem) (documentType : String)
    (taxRate : ℚ) : CalcResult :=
  if items.isEmpty then
    ⟨[], 0, 0, 0⟩
  else if documentType = "boleta" then
    let processedItems := items.map fun it =>
      let unitPriceNet := it.unitPrice / (1 + taxRate)
      let subtotalNet := it.quantity * unitPriceNet - it.discount / (1 + taxRate)
      ⟨it.item, it.quantity, (jsRound unitPriceNet : ℚ),
        (jsRound (it.discount / (1 + taxRate)) : ℚ),
        max 0 (jsRound subtotalNet : ℚ)⟩
    let netAmount := (processedItems.map ProcessedItem.subtotal).sum
    let taxAmount : ℚ := (jsRound (netAmount * taxRate) : ℚ)
    ⟨processedItems, (jsRound netAmount : ℚ), taxAmount, netAmount + taxAmount⟩
  else
    let processedItems := items.map fun it =>
      ⟨it.item, it.quantity, it.unitPrice, it.discount,
        max 0 (it.quantity * it.unitPrice - it.discount)⟩
    let netAmount := (processedItems.map ProcessedItem.subtotal).sum
    let taxAmount : ℚ := (jsRound (netAmount * taxRate) : ℚ)
    ⟨processedItems, (jsRound netAmount : ℚ), taxAmount, netAmount + taxAmount⟩

/-- Raw (unrounded) sum of the tax-exclusive line subtotals, the quantity
`S` the calculator folds over its processed items in the factura branch. -/
def facturaSubtotalSum (items : List RawItem) : ℚ :=
  (items.map fun it => max 0 (it.quantity * it.unitPrice - it.discount)).sum

/-- Raw (unrounded) sum of the per-line rounded net subtotals in the
boleta branch. -/
def boletaSubtotalSum (items : List RawItem) (taxRate : ℚ) : ℚ :=
  (items.map fun it =>
    max 0 (jsRound (it.quantity * (it.unitPrice / (1 + taxRate))
      - it.discount / (1 + taxRate)) : ℚ)).sum

/-- Line items of the spec scenario: quantity 3 at unit price 1000 and
quantity 1 at unit price 500, no discounts. -/
def scenarioItems : List RawItem :=
  [⟨1, 3, 1000, 0⟩, ⟨2, 1, 500, 0⟩]

/-- C4 (amended).  For every non-empty tax-exclusive (factura) item list:
each line subtotal is `quantity * unitPrice - discount` floored at 0;
`netAmount = round S` where `S` is the raw sum of line subtotals;
`taxAmount = round (S * taxRate)` — computed from the raw sum `S`, not
from the rounded `netAmount`; and `totalAmount = S + taxAmount` — again
built on the raw sum.  The spec scenario (qty 3 @ 1000, qty 1 @ 500,
rate 0.19) yields net 3500, tax 665, total 4165 as claimed. -/
theorem factura_calculation_characterized (items : List RawItem) (taxRate : ℚ)
    (h : items ≠ []) :
    (calculateTransactionAmounts items "factura" taxRate).processedItems
      = items.map (fun it => ⟨it.item, it.quantity, it.unitPrice, it.discount,
          max 0 (it.quantity * it.unitPrice - it.discount)⟩)
    ∧ (calculateTransactionAmounts items "factura" taxRate).netAmount
      = (jsRound (facturaSubtotalSum items) : ℚ)
    ∧ (calculateTransactionAmounts items "factura" taxRate).taxAmount
      = (jsRound (facturaSubtotalSum items * taxRate) : ℚ)
    ∧ (calculateTransactionAmounts items "factura" taxRate).totalAmount
      = facturaSubtotalSum items
        + (calculateTransactionAmounts items "factura" taxRate).taxAmount
    ∧ calculateTransactionAmounts scenarioItems "factura" (19/100)
      = ⟨[⟨1, 3, 1000, 0, 3000⟩, ⟨2, 1, 500, 0, 500⟩], 3500, 665, 4165⟩ := by
  have hne : items.isEmpty = false := by
    simpa [List.isEmpty_iff] using h
  have hs : ("factura" : String) ≠ "boleta" := by decide
  refine ⟨?_, ?_, ?_, ?_,
    by norm_num [calculateTransactionAmounts, scenarioItems, jsRound, hs]⟩ <;>
    simp [calculateTransactionAmounts, hne, hs, facturaSubtotalSum,
      List.map_map, Function.comp_def]

/-- C4 witness: the amended characterization applied at the scenario
input. -/
theorem factura_calculation_witness :
    scenarioItems ≠ []
    ∧ (calculateTransactionAmounts scenarioItems "factura" (19/100)).taxAmount
      = (jsRound (facturaSubtotalSum scenarioItems * (19/100)) : ℚ) :=
  ⟨by simp [scenarioItems],
    (factura_calculation_characterized scenarioItems (19/100)
      (by simp [scenarioItems])).2.2.1⟩

/-- C4 counterexample: for the single factura line with quantity 1, unit
price 102.6 and no discount at rate 0.19, the code returns
`netAmount = 103`, `taxAmount = 19` and `totalAmount = 121.6`, whereas the
claim's formulas demand `taxAmount = round(netAmount * taxRate) = 20` and
`totalAmount = netAmount + taxAmount`. -/
theorem factura_claim_formula_fails :
    (calculateTransactionAmounts [⟨1, 1, 513/5, 0⟩] "factura" (19/100)).netAmount = 103
    ∧ (calculateTransactionAmounts [⟨1, 1, 513/5, 0⟩] "factura" (19/100)).taxAmount = 19
    ∧ jsRound ((calculateTransactionAmounts [⟨1, 1, 513/5, 0⟩] "factura" (19/100)).netAmount
        * (19/100)) = 20
    ∧ (calculateTransactionAmounts [⟨1, 1, 513/5, 0⟩] "factura" (19/100)).taxAmount
      ≠ (jsRound ((calculateTransactionAmounts [⟨1, 1, 513/5, 0⟩] "factura" (19/100)).netAmount
          * (19/100)) : ℚ)
    ∧ (calculateTransactionAmounts [⟨1, 1, 513/5, 0⟩] "factura" (19/100)).totalAmount = 608/5
    ∧ (calculateTransactionAmounts [⟨1, 1, 513/5, 0⟩] "factura" (19/100)).totalAmount
      ≠ (calculateTransactionAmounts [⟨1, 1, 513/5, 0⟩] "factura" (19/100)).netAmount
        + (calculateTransactionAmounts [⟨1, 1, 513/5, 0⟩] "factura" (19/100)).taxAmount := by
  norm_num [calculateTransactionAmounts, jsRound,
    (by decide : ("factura" : String) ≠ "boleta")]

/-- C5 (amended).  For every non-empty tax-inclusive (boleta) item list:
each stored line carries the rounded net unit price
`round (unitPrice / (1+taxRate))`, the rounded net discount
`round (discount / (1+taxRate))`, and subtotal
`max 0 (round (quantity * (unitPrice/(1+taxRate)) - discount/(1+taxRate)))`
— the rounding is applied to the whole difference, not to the product
alone.  `netAmount = round T`, `taxAmount = round (T * taxRate)` and
`totalAmount = T + taxAmount` where `T` is the sum of line subtotals.
The spec scenario at rate 0.19 yields net 2941, tax 559, total 3500 as
claimed. -/
theorem boleta_calculation_characterized (items : List RawItem) (taxRate : ℚ)
    (h : items ≠ []) :
    (calculateTransactionAmounts items "boleta" taxRate).processedItems
      = items.map (fun it => ⟨it.item, it.quantity,
          (jsRound (it.unitPrice / (1 + taxRate)) : ℚ),
          (jsRound (it.discount / (1 + taxRate)) : ℚ),
          max 0 (jsRound (it.quantity * (it.unitPrice / (1 + taxRate))
            - it.discount / (1 + taxRate)) : ℚ)⟩)
    ∧ (calculateTransactionAmounts items "boleta" taxRate).netAmount
      = (jsRound (boletaSubtotalSum items taxRate) : ℚ)
    ∧ (calculateTransactionAmounts items "boleta" taxRate).taxAmount
      = (jsRound (boletaSubtotalSum items taxRate * taxRate) : ℚ)
    ∧ (calculateTransactionAmounts items "boleta" taxRate).totalAmount
      = boletaSubtotalSum items taxRate
        + (calculateTransactionAmounts items "boleta" taxRate).taxAmount
    ∧ calculateTransactionAmounts scenarioItems "boleta" (19/100)
      = ⟨[⟨1, 3, 840, 0, 2521⟩, ⟨2, 1, 420, 0, 420⟩], 2941, 559, 3500⟩ := by
  have hne : items.isEmpty = false := by
    simpa [List.isEmpty_iff] using h
  refine ⟨?_, ?_, ?_, ?_,
    by norm_num [calculateTransactionAmounts, scenarioItems, jsRound]⟩ <;>
    simp [calculateTransactionAmounts, hne, boletaSubtotalSum,
      List.map_map, Function.comp_def]

/-- C5 witness: the amended characterization applied at the scenario
input. -/
theorem boleta_calculation_witness :
    scenarioItems ≠ []
    ∧ (calculateTransactionAmounts scenarioItems "boleta" (19/100)).netAmount
      = (jsRound (boletaSubtotalSum scenarioItems (19/100)) : ℚ) :=
  ⟨by simp [scenarioItems],
    (boleta_calculation_characterized scenarioItems (19/100)
      (by simp [scenarioItems])).2.1⟩

/-- C5 counterexample: for the single boleta line with quantity 1, unit
price 119.476 and discount 0.952 at rate 0.19, the stored line is
`(unitPrice 100, discount 1, subtotal 100)`: the stored net unit price is
rounded (100, not the claimed 100.4), the stored net discount is rounded
(1, not the claimed 0.8), and the subtotal 100 differs from the claim's
`round(quantity * netUnitPrice) - netDiscount` which gives 99.2. -/
theorem boleta_claim_formula_fails :
    (calculateTransactionAmounts [⟨7, 1, 119476/1000, 952/1000⟩] "boleta"
        (19/100)).processedItems = [⟨7, 1, 100, 1, 100⟩]
    ∧ (119476/1000 : ℚ) / (1 + 19/100) = 502/5
    ∧ ((100 : ℚ) ≠ 502/5)
    ∧ (952/1000 : ℚ) / (1 + 19/100) = 4/5
    ∧ ((1 : ℚ) ≠ 4/5)
    ∧ max 0 ((jsRound ((1 : ℚ) * (502/5)) : ℚ) - 4/5) = 496/5
    ∧ ((100 : ℚ) ≠ 496/5) := by
  norm_num [calculateTransactionAmounts, jsRound]

/-- Inventory item document, from `models/Item.ts`: `stock` is nullable
(`none` = untracked/never set), `isInventoried` gates stock updates. -/
structure Item where
  id : Nat
  stock : Option ℚ
  isInventoried : Bool
  isDeleted : Bool
deriving Repr, DecidableEq

/-- Transaction document, from `models/Transaction.ts` (the discriminated
base shared by quotations, sales and purchases). -/
structure TransactionRec where
  id : Nat
  type : TransactionType
  correlative : Nat
  documentType : String
  documentNumber : String
  counterparty : Nat
  items : List ProcessedItem
  taxRate : ℚ
  netAmount : ℚ
  taxAmount : ℚ
  totalAmount : ℚ
  status : TransactionStatus
  relatedQuotation : Option Nat
  isDeleted : Bool
deriving Repr, DecidableEq

/-- Line of the legacy standalone `Sale` model (`models/Sale.ts`):
references a `product` and a `quantity` (only the fields the legacy
delete path reads). -/
structure LegacySaleItem where
  product : Nat
  quantity : ℚ
deriving Repr, DecidableEq

/-- Legacy standalone `Sale` document (`models/Sale.ts`): has no status
field; `quotationRef` is the optional source quotation. -/
structure LegacySale where
  id : Nat
  items : List LegacySaleItem
  quotationRef : Option Nat
  isDeleted : Bool
deriving Repr, DecidableEq

/-- The persistent state threaded through every operation: the
`transactions` collection (all three kinds, soft-deleted records
included), the `items` collection, and the legacy `sales` collection. -/
structure Store where
  transactions : List TransactionRec
  itemsCatalog : List Item
  legacySales : List LegacySale
deriving Repr, DecidableEq

/-- Embedding of `Item.findById`: the (unique-`_id`) record, if any. -/
def findItem (s : Store) (itemId : Nat) : Option Item :=
  s.itemsCatalog.find? fun it => it.id == itemId

/-- Embedding of `item.save()`: replace the document with the same id. -/
def saveItem (s : Store) (item : Item) : Store :=
  { s with itemsCatalog :=
      s.itemsCatalog.map fun it => if it.id == item.id then item else it }

/-- Embedding of `StockService.updateStock` (`services/stockService.ts`):
returns `none` (the source's `null`) when the item is missing or
soft-deleted; is a no-op for non-inventoried items; otherwise treats a
null stock as 0 and refuses to persist a negative stock.  A thrown
`Error` is modelled as `Except.error`, producing no store. -/
def updateStock (s : Store) (itemId : Nat) (quantity : ℚ) :
    Except AppError (Option Item × Store) :=
  match findItem s itemId with
  | none => .ok (none, s)
  | some item =>
    if item.isDeleted then .ok (none, s)
    else if item.isInventoried then
      let currentStock := item.stock.getD 0
      let newStock := currentStock + quantity
      if newStock < 0 then .error .insufficientStock
      else
        let updated := { item with stock := some newStock }
        .ok (some updated, saveItem s updated)
    else .ok (some item, s)

/-- Replacing the found record by one with the same id makes `find?`
return the replacement. -/
theorem find?_replace (l : List Item) (itemId : Nat) (it it2 : Item)
    (hid : it2.id = itemId)
    (h : l.find? (fun x => x.id == itemId) = some it) :
    (l.map fun x => if x.id == it2.id then it2 else x).find?
      (fun x => x.id == itemId) = some it2 := by
  induction l with
  | nil => simp at h
  | cons a l ih =>
    by_cases ha : a.id = itemId
    · have h2 : (a.id == it2.id) = true := by simp [ha, hid]
      simp only [List.map_cons, h2, if_true]
      rw [List.find?_cons_of_pos _ (by simp [hid])]
    · have h1 : (a.id == itemId) = false := by simp [ha]
      have h2 : (a.id == it2.id) = false := by simp [hid, ha]
      rw [List.find?_cons_of_neg _ (by simp [ha])] at h
      simp only [List.map_cons, h2, if_false]
      rw [List.find?_cons_of_neg _ (by simp [ha])]
      exact ih h

/-- C7.  `updateStock` returns the not-found outcome (`null` in the
source) exactly when the item is missing or soft-deleted; it is a no-op
for non-inventoried items regardless of the delta; for inventoried items
it treats a null stock as 0, fails with the insufficient-stock error when
`currentStock + delta < 0` (producing no store, so nothing changes and
stock is never clamped), and on success persists `currentStock + delta`
so that the item can be found with the new stock. -/
theorem updateStock_characterized (s : Store) (itemId : Nat) (delta : ℚ) :
    (findItem s itemId = none → updateStock s itemId delta = .ok (none, s))
    ∧ (∀ it, findItem s itemId = some it → it.isDeleted = true →
        updateStock s itemId delta = .ok (none, s))
    ∧ (∀ it, findItem s itemId = some it → it.isDeleted = false →
        it.isInventoried = false →
        updateStock s itemId delta = .ok (some it, s))
    ∧ (∀ it, findItem s itemId = some it → it.isDeleted = false →
        it.isInventoried = true → it.stock.getD 0 + delta < 0 →
        updateStock s itemId delta = .error .insufficientStock)
    ∧ (∀ it, findItem s itemId = some it → it.isDeleted = false →
        it.isInventoried = true → 0 ≤ it.stock.getD 0 + delta →
        updateStock s itemId delta
          = .ok (some { it with stock := some (it.stock.getD 0 + delta) },
              saveItem s { it with stock := some (it.stock.getD 0 + delta) })
        ∧ findItem (saveItem s { it with stock := some (it.stock.getD 0 + delta) }) itemId
          = some { it with stock := some (it.stock.getD 0 + delta) }) := by
  refine ⟨?_, ?_, ?_, ?_, ?_⟩
  · intro h
    simp [updateStock, h]
  · intro it hit hdel
    simp [updateStock, hit, hdel]
  · intro it hit hdel hinv
    simp [updateStock, hit, hdel, hinv]
  · intro it hit hdel hinv hneg
    simp [updateStock, hit, hdel, hinv, hneg]
  · intro it hit hdel hinv hpos
    have hnotneg : ¬ (it.stock.getD 0 + delta < 0) := not_lt.mpr hpos
    refine ⟨by simp [updateStock, hit, hdel, hinv, hnotneg], ?_⟩
    have hid : it.id = itemId := by
      have := List.find?_some hit
      simpa using this
    exact find?_replace s.itemsCatalog itemId it _ (by simpa using hid) hit

/-- C7 witness: a store with one inventoried item (id 10, stock 5): a
delta of −6 is refused with the insufficient-stock error. -/
theorem updateStock_witness :
    updateStock ⟨[], [⟨10, some 5, true, false⟩], []⟩ 10 (-6)
      = .error .insufficientStock :=
  (updateStock_characterized ⟨[], [⟨10, some 5, true, false⟩], []⟩ 10
      (-6)).2.2.2.1 ⟨10, some 5, true, false⟩ rfl rfl rfl (by norm_num)

/-- Embedding of the services' `findOne({ _id, type, isDeleted: false })`
lookups: the record with the given id, provided it has the requested kind
and is not soft-deleted.  `_id` values are unique in the collection, so
the first match is the document. -/
def findTransaction (s : Store) (kind : TransactionType) (id : Nat) :
    Option TransactionRec :=
  (s.transactions.find? fun t => t.id == id).bind fun t =>
    if t.type = kind ∧ t.isDeleted = false then some t else none

/-- Status of the transaction document with the given id, if present
(deleted or not) — used to observe a store. -/
def statusOfTransaction (s : Store) (id : Nat) : Option TransactionStatus :=
  (s.transactions.find? fun t => t.id == id).map TransactionRec.status

/-- Embedding of `findByIdAndUpdate(id, { status })`: update the status of
the document with the given id. -/
def setTransactionStatus (s : Store) (id : Nat) (status : TransactionStatus) :
    Store :=
  { s with transactions :=
      s.transactions.map fun t => if t.id == id then { t with status := status } else t }

/-- Fresh `_id` for a newly created document (ObjectId generation). -/
def freshTransactionId (s : Store) : Nat :=
  (s.transactions.map TransactionRec.id).foldr max 0 + 1

/-- Embedding of `Transaction.findOne({}).sort({ correlative: -1 }).limit(1)`:
the record holding the greatest correlative, across every transaction
record of any kind with no `isDeleted` filter. -/
def lastTransactionByCorrelative (s : Store) : Option TransactionRec :=
  s.transactions.foldl
    (fun acc t =>
      match acc with
      | none => some t
      | some u => if u.correlative < t.correlative then some t else some u)
    none

/-- Embedding of `lastTransaction ? lastTransaction.correlative + 1 : 1`,
the correlative computation repeated in every create/convert function and
in each `generateNextDocumentNumber`. -/
def nextCorrelative (s : Store) : Nat :=
  match lastTransactionByCorrelative s with
  | none => 1
  | some t => t.correlative + 1

/-- Embedding of JavaScript `str.padStart(4, '0')`. -/
def padStart4 (str : String) : String :=
  if str.length < 4 then
    String.mk (List.replicate (4 - str.length) '0') ++ str
  else str

/-- Embedding of `generateNextDocumentNumber` in `quotationService.ts`:
`COT-` followed by the next correlative zero-padded to 4 digits. -/
def generateNextDocumentNumberQuotation (s : Store) : String :=
  "COT-" ++ padStart4 (toString (nextCorrelative s))

/-- Embedding of `generateNextDocumentNumber` in the sale service:
`VEN-` followed by the next correlative zero-padded to 4 digits. -/
def generateNextDocumentNumberSale (s : Store) : String :=
  "VEN-" ++ padStart4 (toString (nextCorrelative s))

/-- Embedding of `generateNextDocumentNumber` in `purchaseService.ts`:
`COM-` followed by the next correlative zero-padded to 4 digits. -/
def generateNextDocumentNumberPurchase (s : Store) : String :=
  "COM-" ++ padStart4 (toString (nextCorrelative s))

/-- The max-correlative fold, started at a record `b`, yields a record
whose correlative is the maximum of `b`'s and all list correlatives. -/
theorem lastByCorr_go (l : List TransactionRec) (b : TransactionRec) :
    ∃ c, l.foldl
        (fun acc t =>
          match acc with
          | none => some t
          | some u => if u.correlative < t.correlative then some t else some u)
        (some b) = some c
      ∧ c.correlative
        = max b.correlative ((l.map TransactionRec.correlative).foldr max 0) := by
  induction l generalizing b with
  | nil => exact ⟨b, rfl, by simp⟩
  | cons a l ih =>
    simp only [List.foldl_cons]
    by_cases hab : b.correlative < a.correlative
    · obtain ⟨c, hc, hcorr⟩ := ih a
      refine ⟨c, by simpa [hab] using hc, ?_⟩
      rw [hcorr]
      simp only [List.map_cons, List.foldr_cons]
      omega
    · obtain ⟨c, hc, hcorr⟩ := ih b
      refine ⟨c, by simpa [hab] using hc, ?_⟩
      rw [hcorr]
      simp only [List.map_cons, List.foldr_cons]
      omega

/-- The next correlative is one more than the maximum stored correlative
(and 1 on an empty collection, since the fold's base is 0). -/
theorem nextCorrelative_eq (s : Store) :
    nextCorrelative s
      = ((s.transactions.map TransactionRec.correlative).foldr max 0) + 1 := by
  unfold nextCorrelative lastTransactionByCorrelative
  cases hl : s.transactions with
  | nil => simp
  | cons a l =>
    simp only [List.foldl_cons]
    obtain ⟨c, hc, hcorr⟩ := lastByCorr_go l a
    rw [show (List.foldl
        (fun acc t =>
          match acc with
          | none => some t
          | some u => if u.correlative < t.correlative then some t else some u)
        (some a) l) = some c from hc]
    simp only [List.map_cons, List.foldr_cons]
    omega

/-- Padding semantics of `padStart4`: the result has length
`max 4 str.length`. -/
theorem padStart4_length (str : String) :
    (padStart4 str).length = max 4 str.length := by
  unfold padStart4
  by_cases h : str.length < 4
  · rw [if_pos h, String.length_append]
    simp only [String.length, String.mk, List.length_replicate]
    omega
  · rw [if_neg h]
    omega

/-- C6.  For every store: the next correlative is
`max(correlative over all transaction records) + 1`, or 1 when no record
exists; soft-deleting every record does not change it (deleted records
count); and each kind's generator formats the number as its prefix
(`COT` / `VEN` / `COM`), a dash, and the correlative zero-padded to 4
digits (the padding leaves longer correlatives intact). -/
theorem document_numbering_characterized (s : Store) :
    nextCorrelative s
      = ((s.transactions.map TransactionRec.correlative).foldr max 0) + 1
    ∧ (s.transactions = [] → nextCorrelative s = 1)
    ∧ nextCorrelative
        { s with transactions := s.transactions.map fun t => { t with isDeleted := true } }
      = nextCorrelative s
    ∧ generateNextDocumentNumberQuotation s
      = "COT-" ++ padStart4 (toString (nextCorrelative s))
    ∧ generateNextDocumentNumberSale s
      = "VEN-" ++ padStart4 (toString (nextCorrelative s))
    ∧ generateNextDocumentNumberPurchase s
      = "COM-" ++ padStart4 (toString (nextCorrelative s))
    ∧ (∀ str : String, (padStart4 str).length = max 4 str.length)
    ∧ padStart4 (toString 41) = "0041"
    ∧ padStart4 (toString 12345) = "12345" := by
  refine ⟨nextCorrelative_eq s, ?_, ?_, rfl, rfl, rfl, padStart4_length, by decide, by decide⟩
  · intro h
    rw [nextCorrelative_eq, h]
    rfl
  · rw [nextCorrelative_eq, nextCorrelative_eq]
    simp [List.map_map, Function.comp_def]

/-- Allowed-transition table of `changeQuotationStatus`
(`quotationService.ts`).  The source's object literal has keys
`pending`, `approved`, `rejected`, `converted`; looking up any other
status yields `undefined`, whose optional-chained `includes` makes the
guard fail, which the catch-all arm models as the empty list. -/
def quotationValidTransitions (status : TransactionStatus) :
    List TransactionStatus :=
  match status with
  | .pending => [.approved, .rejected]
  | .approved => [.converted, .rejected]
  | .rejected => [.pending]
  | .converted => []
  | _ => []

/-- Allowed-transition table of `changeSaleStatus` (sale service), with
the same `undefined`-lookup catch-all. -/
def saleValidTransitions (status : TransactionStatus) :
    List TransactionStatus :=
  match status with
  | .pending => [.invoiced]
  | .invoiced => [.paid]
  | .paid => []
  | _ => []

/-- Allowed-transition table of `changePurchaseStatus`
(`purchaseService.ts`), with the same `undefined`-lookup catch-all. -/
def purchaseValidTransitions (status : TransactionStatus) :
    List TransactionStatus :=
  match status with
  | .pending => [.received, .rejected]
  | .received => []
  | .rejected => []
  | _ => []

/-- Embedding of `changeQuotationStatus`: look up the non-deleted
quotation, refuse a target outside the transition table, otherwise
persist the new status. -/
def changeQuotationStatus (s : Store) (id : Nat) (status : TransactionStatus) :
    Except AppError Store :=
  match findTransaction s .quotation id with
  | none => .error .notFound
  | some q =>
    if status ∈ quotationValidTransitions q.status then
      .ok (setTransactionStatus s id status)
    else .error (.illegalTransition q.status status)

/-- Embedding of `changeSaleStatus` (sale service). -/
def changeSaleStatus (s : Store) (id : Nat) (status : TransactionStatus) :
    Except AppError Store :=
  match findTransaction s .sale id with
  | none => .error .notFound
  | some sale =>
    if status ∈ saleValidTransitions sale.status then
      .ok (setTransactionStatus s id status)
    else .error (.illegalTransition sale.status status)

/-- Embedding of `changePurchaseStatus` (`purchaseService.ts`). -/
def changePurchaseStatus (s : Store) (id : Nat) (status : TransactionStatus) :
    Except AppError Store :=
  match findTransaction s .purchase id with
  | none => .error .notFound
  | some p =>
    if status ∈ purchaseValidTransitions p.status then
      .ok (setTransactionStatus s id status)
    else .error (.illegalTransition p.status status)

/-- Dispatcher naming the per-kind status-change service function. -/
def changeStatusFor (kind : TransactionType) :
    Store → Nat → TransactionStatus → Except AppError Store :=
  match kind with
  | .quotation => changeQuotationStatus
  | .sale => changeSaleStatus
  | .purchase => changePurchaseStatus

/-- The claim's transition table, written independently:
quotation `pending → {approved, rejected}`, `approved → {converted,
rejected}`, `rejected → {pending}`, `converted` terminal; sale
`pending → invoiced → paid`, `paid` terminal; purchase
`pending → {received, rejected}`, both terminal; every other triple is
disallowed. -/
def allowedTransition (kind : TransactionType)
    (fromStatus toStatus : TransactionStatus) : Bool :=
  match kind, fromStatus, toStatus with
  | .quotation, .pending, .approved => true
  | .quotation, .pending, .rejected => true
  | .quotation, .approved, .converted => true
  | .quotation, .approved, .rejected => true
  | .quotation, .rejected, .pending => true
  | .sale, .pending, .invoiced => true
  | .sale, .invoiced, .paid => true
  | .purchase, .pending, .received => true
  | .purchase, .pending, .rejected => true
  | _, _, _ => false

/-- A successful `findTransaction` is a successful raw id lookup on a
record of the right kind that is not soft-deleted. -/
theorem findTransaction_elim (s : Store) (kind : TransactionType) (id : Nat)
    (t : TransactionRec) (h : findTransaction s kind id = some t) :
    (s.transactions.find? fun x => x.id == id) = some t
      ∧ t.type = kind ∧ t.isDeleted = false := by
  unfold findTransaction at h
  cases hf : s.transactions.find? fun x => x.id == id with
  | none => rw [hf] at h; simp at h
  | some u =>
    rw [hf] at h
    simp only [Option.some_bind] at h
    by_cases hc : u.type = kind ∧ u.isDeleted = false
    · rw [if_pos hc] at h
      injection h with h
      subst h
      exact ⟨rfl, hc⟩
    · rw [if_neg hc] at h
      simp at h

/-- Updating through an id-preserving function replaces the record that
`find?` returns. -/
theorem find?_update {α : Type} (l : List α) (p : α → Bool) (f : α → α)
    (a : α) (h : l.find? p = some a) (hf : ∀ x, p (f x) = p x) :
    (l.map fun x => if p x then f x else x).find? p = some (f a) := by
  induction l with
  | nil => simp at h
  | cons b l ih =>
    by_cases hb : p b = true
    · rw [List.find?_cons_of_pos _ hb] at h
      injection h with h
      subst h
      simp only [List.map_cons, hb, if_true]
      rw [List.find?_cons_of_pos _ (by rw [hf]; exact hb)]
    · have hb' : p b = false := by
        simpa using hb
      rw [List.find?_cons_of_neg _ (by simp [hb'])] at h
      simp only [List.map_cons, hb', Bool.false_eq_true, if_false]
      rw [List.find?_cons_of_neg _ (by simp [hb'])]
      exact ih h

/-- Membership in each source transition table agrees with the claim's
`allowedTransition` relation. -/
theorem validTransitions_agree (kind : TransactionType)
    (fromStatus toStatus : TransactionStatus) :
    ((toStatus ∈ (match kind with
        | .quotation => quotationValidTransitions
        | .sale => saleValidTransitions
        | .purchase => purchaseValidTransitions) fromStatus))
      ↔ allowedTransition kind fromStatus toStatus = true := by
  cases kind <;> cases fromStatus <;> cases toStatus <;> decide

/-- C3.  For every store and every non-deleted transaction of any kind,
`changeStatus` succeeds exactly on the triples of the per-kind transition
table (quotation: pending→approved/rejected, approved→converted/rejected,
rejected→pending, converted terminal; sale: pending→invoiced→paid;
purchase: pending→received/rejected, both terminal), persisting the
target status; every other triple fails with the illegal-transition
error carrying the old and attempted statuses, and — the error producing
no store — the stored status is unchanged. -/
theorem change_status_characterized (s : Store) (kind : TransactionType)
    (id : Nat) (target : TransactionStatus) (t : TransactionRec)
    (h : findTransaction s kind id = some t) :
    (allowedTransition kind t.status target = true →
      changeStatusFor kind s id target = .ok (setTransactionStatus s id target)
      ∧ statusOfTransaction (setTransactionStatus s id target) id = some target)
    ∧ (allowedTransition kind t.status target = false →
      changeStatusFor kind s id target
        = .error (.illegalTransition t.status target)) := by
  obtain ⟨hfind, -, -⟩ := findTransaction_elim s kind id t h
  have hstatus : statusOfTransaction (setTransactionStatus s id target) id
      = some target := by
    unfold statusOfTransaction setTransactionStatus
    rw [find?_update s.transactions _ (fun x => { x with status := target }) t hfind
      (fun x => rfl)]
    rfl
  constructor
  · intro hallow
    have hmem := (validTransitions_agree kind t.status target).mpr hallow
    cases kind <;>
      simp only [changeStatusFor, changeQuotationStatus, changeSaleStatus,
        changePurchaseStatus, h] <;>
      exact ⟨by simp only [hmem] at *; rw [if_pos (by exact hmem)], hstatus⟩
  · intro hdis
    have hmem : ¬ (target ∈ (match kind with
        | .quotation => quotationValidTransitions
        | .sale => saleValidTransitions
        | .purchase => purchaseValidTransitions) t.status) := by
      rw [validTransitions_agree kind t.status target]
      simp [hdis]
    cases kind <;>
      simp only [changeStatusFor, changeQuotationStatus, changeSaleStatus,
        changePurchaseStatus, h] <;>
      rw [if_neg (by simpa using hmem)]

/-- Store for the C3 witness: a pending quotation (id 1), a pending sale
(id 2) and a pending purchase (id 3). -/
def statusWitnessStore : Store :=
  ⟨[⟨1, .quotation, 1, "factura", "COT-0001", 5, [], 19/100, 0, 0, 0, .pending, none, false⟩,
    ⟨2, .sale, 2, "factura", "VEN-0002", 5, [], 19/100, 0, 0, 0, .pending, none, false⟩,
    ⟨3, .purchase, 3, "factura", "COM-0003", 5, [], 19/100, 0, 0, 0, .pending, none, false⟩],
    [], []⟩

/-- C3 witness: on `statusWitnessStore`, approving the pending quotation
succeeds, and marking the pending purchase `paid` fails with the
illegal-transition error. -/
theorem change_status_witness :
    changeStatusFor .quotation statusWitnessStore 1 .approved
      = .ok (setTransactionStatus statusWitnessStore 1 .approved)
    ∧ changeStatusFor .purchase statusWitnessStore 3 .paid
      = .error (.illegalTransition .pending .paid) :=
  ⟨((change_status_characterized statusWitnessStore .quotation 1 .approved
      ⟨1, .quotation, 1, "factura", "COT-0001", 5, [], 19/100, 0, 0, 0, .pending, none, false⟩
      rfl).1 rfl).1,
    (change_status_characterized statusWitnessStore .purchase 3 .paid
      ⟨3, .purchase, 3, "factura", "COM-0003", 5, [], 19/100, 0, 0, 0, .pending, none, false⟩
      rfl).2 rfl⟩

/-- Embedding of `convertQuotationToSale` (sale service): require an
existing, non-deleted quotation in `approved` status; allocate the next
correlative and a `VEN-` document number; create a sale copying
`documentType`, `counterparty`, `items`, `taxRate`, `netAmount`,
`taxAmount` and `totalAmount` verbatim from the quotation, with status
`invoiced` and `relatedQuotation` pointing at the source; then set the
source quotation's status to `converted`.  The source performs no stock
reads or writes in this function. -/
def convertQuotationToSale (s : Store) (quotationId : Nat) :
    Except AppError (TransactionRec × Store) :=
  match findTransaction s .quotation quotationId with
  | none => .error .notFound
  | some quotation =>
    if quotation.status ≠ TransactionStatus.approved then .error .invalidState
    else
      let correlative := nextCorrelative s
      let documentNumber := "VEN-" ++ padStart4 (toString correlative)
      let sale : TransactionRec :=
        ⟨freshTransactionId s, .sale, correlative, quotation.documentType,
          documentNumber, quotation.counterparty, quotation.items,
          quotation.taxRate, quotation.netAmount, quotation.taxAmount,
          quotation.totalAmount, .invoiced, some quotationId, false⟩
      let s2 : Store := { s with transactions := s.transactions ++ [sale] }
      .ok (sale, setTransactionStatus s2 quotationId .converted)

/-- A successful `find?` on a list prefix survives appending. -/
theorem find?_append_some {α : Type} (l₁ l₂ : List α) (p : α → Bool) (a : α)
    (h : l₁.find? p = some a) : (l₁ ++ l₂).find? p = some a := by
  induction l₁ with
  | nil => simp at h
  | cons b l ih =>
    by_cases hb : p b = true
    · rw [List.find?_cons_of_pos _ hb] at h
      rw [List.cons_append, List.find?_cons_of_pos _ hb]
      exact h
    · have hb' : p b = false := by simpa using hb
      rw [List.find?_cons_of_neg _ (by simp [hb'])] at h
      rw [List.cons_append, List.find?_cons_of_neg _ (by simp [hb'])]
      exact ih h

/-- C1.  `convertQuotationToSale` fails with not-found when the quotation
does not exist (as a non-deleted quotation record), fails with the
invalid-state error whenever its status is anything but `approved`
(`pending`, `converted` and `rejected` included), and on an approved
quotation succeeds, creating a sale whose `documentType`,
`counterparty`, `items`, `taxRate`, `netAmount`, `taxAmount` and
`totalAmount` are copied verbatim (not recomputed), whose status is
`invoiced` and whose `relatedQuotation` is the source id, while the
source quotation's status becomes `converted`. -/
theorem convert_quotation_characterized (s : Store) (quotationId : Nat) :
    (findTransaction s .quotation quotationId = none →
      convertQuotationToSale s quotationId = .error .notFound)
    ∧ (∀ q, findTransaction s .quotation quotationId = some q →
        q.status ≠ .approved →
        convertQuotationToSale s quotationId = .error .invalidState)
    ∧ (∀ q, findTransaction s .quotation quotationId = some q →
        q.status = .approved →
        ∃ sale s3, convertQuotationToSale s quotationId = .ok (sale, s3)
          ∧ sale.type = .sale
          ∧ sale.documentType = q.documentType
          ∧ sale.counterparty = q.counterparty
          ∧ sale.items = q.items
          ∧ sale.taxRate = q.taxRate
          ∧ sale.netAmount = q.netAmount
          ∧ sale.taxAmount = q.taxAmount
          ∧ sale.totalAmount = q.totalAmount
          ∧ sale.status = .invoiced
          ∧ sale.relatedQuotation = some quotationId
          ∧ statusOfTransaction s3 quotationId = some .converted) := by
  refine ⟨?_, ?_, ?_⟩
  · intro h
    simp [convertQuotationToSale, h]
  · intro q hq hstatus
    simp [convertQuotationToSale, hq, hstatus]
  · intro q hq hstatus
    obtain ⟨hfind, -, -⟩ := findTransaction_elim s .quotation quotationId q hq
    refine ⟨⟨freshTransactionId s, .sale, nextCorrelative s, q.documentType,
        "VEN-" ++ padStart4 (toString (nextCorrelative s)), q.counterparty,
        q.items, q.taxRate, q.netAmount, q.taxAmount, q.totalAmount,
        .invoiced, some quotationId, false⟩,
      setTransactionStatus
        { s with transactions := s.transactions
            ++ [⟨freshTransactionId s, .sale, nextCorrelative s, q.documentType,
              "VEN-" ++ padStart4 (toString (nextCorrelative s)), q.counterparty,
              q.items, q.taxRate, q.netAmount, q.taxAmount, q.totalAmount,
              .invoiced, some quotationId, false⟩] }
        quotationId .converted,
      ?_, rfl, rfl, rfl, rfl, rfl, rfl, rfl, rfl, rfl, rfl, ?_⟩
    · simp only [convertQuotationToSale, hq]
      rw [if_neg (by simp [hstatus])]
    · unfold statusOfTransaction setTransactionStatus
      have happ := find?_append_some s.transactions
        [⟨freshTransactionId s, .sale, nextCorrelative s, q.documentType,
          "VEN-" ++ padStart4 (toString (nextCorrelative s)), q.counterparty,
          q.items, q.taxRate, q.netAmount, q.taxAmount, q.totalAmount,
          .invoiced, some quotationId, false⟩]
        (fun x => x.id == quotationId) q hfind
      rw [find?_update _ _ (fun x => { x with status := .converted }) q happ
        (fun x => rfl)]
      rfl

/-- Quotation used by the C1 witness: approved, one line item. -/
def c1Quotation : TransactionRec :=
  ⟨1, .quotation, 1, "factura", "COT-0001", 5, [⟨10, 5, 1000, 0, 5000⟩],
    19/100, 5000, 950, 5950, .approved, none, false⟩

/-- Store used by the C1 witness. -/
def c1Store : Store :=
  ⟨[c1Quotation], [⟨10, some 5, true, false⟩], []⟩

/-- C1 witness: converting the approved quotation of `c1Store` succeeds
with all fields carried over and the quotation marked converted. -/
theorem convert_quotation_witness :
    ∃ sale s3, convertQuotationToSale c1Store 1 = .ok (sale, s3)
      ∧ sale.type = .sale
      ∧ sale.documentType = c1Quotation.documentType
      ∧ sale.counterparty = c1Quotation.counterparty
      ∧ sale.items = c1Quotation.items
      ∧ sale.taxRate = c1Quotation.taxRate
      ∧ sale.netAmount = c1Quotation.netAmount
      ∧ sale.taxAmount = c1Quotation.taxAmount
      ∧ sale.totalAmount = c1Quotation.totalAmount
      ∧ sale.status = .invoiced
      ∧ sale.relatedQuotation = some 1
      ∧ statusOfTransaction s3 1 = some .converted :=
  (convert_quotation_characterized c1Store 1).2.2 c1Quotation rfl rfl

/-- C2 (amended).  `convertQuotationToSale` performs no stock adjustment
at all: on success the items catalog is byte-for-byte unchanged (so every
item, inventory-tracked or not, keeps its stock, even when a line
quantity exceeds the available stock), and the only possible failures are
not-found and invalid-state — the conversion never fails for stock
reasons. -/
theorem convert_no_stock_adjustment (s : Store) (quotationId : Nat) :
    (∀ pr, convertQuotationToSale s quotationId = .ok pr →
      pr.2.itemsCatalog = s.itemsCatalog
      ∧ ∀ itemId, findItem pr.2 itemId = findItem s itemId)
    ∧ (∀ e, convertQuotationToSale s quotationId = .error e →
      e = .notFound ∨ e = .invalidState) := by
  constructor
  · intro pr hpr
    cases hq : findTransaction s .quotation quotationId with
    | none => simp [convertQuotationToSale, hq] at hpr
    | some q =>
      by_cases hstatus : q.status = .approved
      · simp only [convertQuotationToSale, hq] at hpr
        rw [if_neg (by simp [hstatus])] at hpr
        injection hpr with hpr
        subst hpr
        exact ⟨rfl, fun itemId => rfl⟩
      · simp [convertQuotationToSale, hq, hstatus] at hpr
  · intro e he
    cases hq : findTransaction s .quotation quotationId with
    | none =>
      simp [convertQuotationToSale, hq] at he
      exact Or.inl he.symm
    | some q =>
      by_cases hstatus : q.status = .approved
      · simp only [convertQuotationToSale, hq] at he
        rw [if_neg (by simp [hstatus])] at he
        simp at he
      · simp [convertQuotationToSale, hq, hstatus] at he
        exact Or.inr he.symm

/-- Store for the C2 counterexample: an inventoried item (id 10) with
stock 5, and an approved quotation whose single line sells quantity 6 of
it — more than is in stock. -/
def convCexStore : Store :=
  ⟨[⟨1, .quotation, 1, "factura", "COT-0001", 5, [⟨10, 6, 1000, 0, 6000⟩],
      19/100, 6000, 1140, 7140, .approved, none, false⟩],
    [⟨10, some 5, true, false⟩], []⟩

/-- Sale produced by converting `convCexStore`'s quotation. -/
def convCexSale : TransactionRec :=
  ⟨2, .sale, 2, "factura", "VEN-0002", 5, [⟨10, 6, 1000, 0, 6000⟩],
    19/100, 6000, 1140, 7140, .invoiced, some 1, false⟩

/-- Store after converting `convCexStore`'s quotation. -/
def convCexAfter : Store :=
  ⟨[⟨1, .quotation, 1, "factura", "COT-0001", 5, [⟨10, 6, 1000, 0, 6000⟩],
      19/100, 6000, 1140, 7140, .converted, none, false⟩,
    convCexSale],
    [⟨10, some 5, true, false⟩], []⟩

/-- C2 counterexample: converting an approved quotation whose line
quantity (6) exceeds the inventoried item's stock (5) succeeds — the
claim demands the whole conversion fail — and afterwards the item's
stock is still 5, not adjusted by −6. -/
theorem conversion_stock_claim_fails :
    convertQuotationToSale convCexStore 1 = .ok (convCexSale, convCexAfter)
    ∧ findItem convCexStore 10 = some ⟨10, some 5, true, false⟩
    ∧ findItem convCexAfter 10 = some ⟨10, some 5, true, false⟩
    ∧ statusOfTransaction convCexAfter 1 = some .converted :=
  ⟨rfl, rfl, rfl, rfl⟩

/-- C2 witness: the amended no-stock-adjustment theorem applied to the
concrete conversion of `convCexStore`. -/
theorem convert_no_stock_witness :
    convCexAfter.itemsCatalog = convCexStore.itemsCatalog :=
  ((convert_no_stock_adjustment convCexStore 1).1 (convCexSale, convCexAfter)
    rfl).1

/-- Embedding of `findByIdAndUpdate(id, { isDeleted: true })` on the
transactions collection (soft delete). -/
def markTransactionDeleted (s : Store) (id : Nat) : Store :=
  { s with transactions :=
      s.transactions.map fun t => if t.id == id then { t with isDeleted := true } else t }

/-- Embedding of the sale service's `deleteSale`: require an existing,
non-deleted sale in `pending` status, then soft-delete it.  The source
function touches neither the items collection nor any quotation. -/
def deleteSale (s : Store) (id : Nat) :
    Except AppError (TransactionRec × Store) :=
  match findTransaction s .sale id with
  | none => .error .notFound
  | some sale =>
    if sale.status ≠ TransactionStatus.pending then .error .invalidState
    else .ok ({ sale with isDeleted := true }, markTransactionDeleted s id)

/-- Embedding of `Sale.findById` on the legacy standalone sales
collection. -/
def legacyFindSale (s : Store) (id : Nat) : Option LegacySale :=
  s.legacySales.find? fun x => x.id == id

/-- The legacy controller's per-item stock restoration loop:
`for (const item of sale.items) await stockService.updateStock(product, quantity)`. -/
def restoreStockForItems (s : Store) (items : List LegacySaleItem) :
    Except AppError Store :=
  match items with
  | [] => .ok s
  | it :: rest =>
    match updateStock s it.product it.quantity with
    | .error e => .error e
    | .ok pr => restoreStockForItems pr.2 rest

/-- Embedding of the legacy `saleController.deleteSale`: look up the
legacy sale (404 when missing or already soft-deleted — with no status
gate), restore stock by each line's positive quantity through the stock
service, revert the referenced quotation to `approved` when
`quotationRef` is set, then soft-delete the sale. -/
def legacyDeleteSale (s : Store) (id : Nat) : Except AppError Store :=
  match legacyFindSale s id with
  | none => .error .notFound
  | some sale =>
    if sale.isDeleted then .error .notFound
    else
      match restoreStockForItems s sale.items with
      | .error e => .error e
      | .ok s1 =>
        let s2 := match sale.quotationRef with
          | some qid => setTransactionStatus s1 qid .approved
          | none => s1
        .ok { s2 with legacySales := s2.legacySales.map fun x =>
            if x.id == id then { x with isDeleted := true } else x }

/-- Soft-deleting one transaction changes no transaction's status. -/
theorem statusOf_markDeleted (s : Store) (id qid : Nat) :
    statusOfTransaction (markTransactionDeleted s id) qid
      = statusOfTransaction s qid := by
  unfold statusOfTransaction markTransactionDeleted
  rw [List.find?_map]
  rw [show ((fun t : TransactionRec => t.id == qid)
      ∘ (fun t : TransactionRec => if t.id == id then { t with isDeleted := true } else t))
      = (fun t : TransactionRec => t.id == qid) from
    funext fun t => by cases h : t.id == id <;> simp [Function.comp, h]]
  rw [Option.map_map]
  rw [show (TransactionRec.status
      ∘ (fun t : TransactionRec => if t.id == id then { t with isDeleted := true } else t))
      = TransactionRec.status from
    funext fun t => by cases h : t.id == id <;> simp [Function.comp, h]]

/-- Store for the C8 counterexample and witness: an inventoried item
(id 10) with stock 0, a converted quotation (id 1), and a pending sale
(id 2) of quantity 5 of the item, related to the quotation. -/
def delCexStore : Store :=
  ⟨[⟨1, .quotation, 1, "factura", "COT-0001", 5, [⟨10, 5, 1000, 0, 5000⟩],
      19/100, 5000, 950, 5950, .converted, none, false⟩,
    ⟨2, .sale, 2, "factura", "VEN-0002", 5, [⟨10, 5, 1000, 0, 5000⟩],
      19/100, 5000, 950, 5950, .pending, some 1, false⟩],
    [⟨10, some 0, true, false⟩], []⟩

/-- Store for the legacy-delete conjuncts of the amended C8: an
inventoried item (id 10) with stock 3, a converted quotation (id 1), and
a non-deleted legacy sale (id 7) of quantity 5 referencing both. -/
def legacyDelStore : Store :=
  ⟨[⟨1, .quotation, 1, "factura", "COT-0001", 5, [⟨10, 5, 1000, 0, 5000⟩],
      19/100, 5000, 950, 5950, .converted, none, false⟩],
    [⟨10, some 3, true, false⟩],
    [⟨7, [⟨10, 5⟩], some 1, false⟩]⟩

/-- Result of `legacyDeleteSale legacyDelStore 7`: stock restored to 8,
quotation reverted to approved, legacy sale soft-deleted. -/
def legacyDelAfter : Store :=
  ⟨[⟨1, .quotation, 1, "factura", "COT-0001", 5, [⟨10, 5, 1000, 0, 5000⟩],
      19/100, 5000, 950, 5950, .approved, none, false⟩],
    [⟨10, some 8, true, false⟩],
    [⟨7, [⟨10, 5⟩], some 1, true⟩]⟩

/-- C8 (amended).  Deleting a pending sale through the transaction-model
sale service only soft-deletes it: the sale record becomes `isDeleted`
(and stops being found as a sale), while the items catalog and every
transaction's status — the related quotation's included — are unchanged;
deleting a non-pending sale fails with the invalid-state error.  The
stock restoration and quotation reversion the claim describes exist only
in the legacy sale controller's delete path (which has no pending gate):
on `legacyDelStore` it raises the inventoried item's stock by the line
quantity (3 to 8) and reverts the referenced quotation to `approved`. -/
theorem delete_sale_characterized (s : Store) (id : Nat) :
    (∀ t, findTransaction s .sale id = some t → t.status = .pending →
      deleteSale s id = .ok ({ t with isDeleted := true }, markTransactionDeleted s id)
      ∧ (markTransactionDeleted s id).itemsCatalog = s.itemsCatalog
      ∧ (∀ qid, statusOfTransaction (markTransactionDeleted s id) qid
          = statusOfTransaction s qid)
      ∧ findTransaction (markTransactionDeleted s id) .sale id = none)
    ∧ (∀ t, findTransaction s .sale id = some t → t.status ≠ .pending →
      deleteSale s id = .error .invalidState)
    ∧ legacyDeleteSale legacyDelStore 7 = .ok legacyDelAfter
    ∧ findItem legacyDelAfter 10 = some ⟨10, some 8, true, false⟩
    ∧ statusOfTransaction legacyDelAfter 1 = some .approved := by
  refine ⟨?_, ?_, ?_, rfl, rfl⟩
  · intro t ht hpending
    obtain ⟨hfind, -, -⟩ := findTransaction_elim s .sale id t ht
    refine ⟨?_, rfl, fun qid => statusOf_markDeleted s id qid, ?_⟩
    · simp only [deleteSale, ht]
      rw [if_neg (by simp [hpending])]
    · unfold findTransaction markTransactionDeleted
      rw [find?_update s.transactions _ (fun x => { x with isDeleted := true }) t hfind
        (fun x => rfl)]
      simp
  · intro t ht hnp
    simp [deleteSale, ht, hnp]
  · show legacyDeleteSale legacyDelStore 7 = .ok legacyDelAfter
    norm_num [legacyDeleteSale, legacyFindSale, legacyDelStore, legacyDelAfter,
      restoreStockForItems, updateStock, findItem, saveItem,
      setTransactionStatus, List.find?]

/-- C8 counterexample: deleting the pending sale of `delCexStore`
succeeds but leaves the inventoried item's stock at 0 (the claim demands
it rise by the line quantity 5) and leaves the related quotation in
`converted` (the claim demands `approved`). -/
theorem delete_sale_claim_fails :
    deleteSale delCexStore 2
      = .ok (⟨2, .sale, 2, "factura", "VEN-0002", 5, [⟨10, 5, 1000, 0, 5000⟩],
          19/100, 5000, 950, 5950, .pending, some 1, true⟩,
        markTransactionDeleted delCexStore 2)
    ∧ findItem (markTransactionDeleted delCexStore 2) 10
      = some ⟨10, some 0, true, false⟩
    ∧ statusOfTransaction (markTransactionDeleted delCexStore 2) 1
      = some .converted :=
  ⟨rfl, rfl, rfl⟩

/-- C8 witness: the amended theorem applied to the pending sale of
`delCexStore`: its soft delete leaves the items catalog unchanged. -/
theorem delete_sale_witness :
    (markTransactionDeleted delCexStore 2).itemsCatalog
      = delCexStore.itemsCatalog :=
  ((delete_sale_characterized delCexStore 2).1
    ⟨2, .sale, 2, "factura", "VEN-0002", 5, [⟨10, 5, 1000, 0, 5000⟩],
      19/100, 5000, 950, 5950, .pending, some 1, false⟩
    rfl rfl).2.1

/-- Caller-supplied payload for previews and creates: `documentType`
(`none` models an absent/falsy field), raw `items` (an absent list and an
empty list behave identically in the source's `!items || items.length === 0`
tests), an optional `taxRate`, the counterparty reference, an optional
initial `status` and an optional `relatedQuotation` (sales only). -/
structure TxInput where
  documentType : Option String
  items : List RawItem
  taxRate : Option ℚ
  counterparty : Nat
  status : Option TransactionStatus
  relatedQuotation : Option Nat
deriving Repr, DecidableEq

/-- Embedding of the preview functions (textually identical in the three
services): require a documentType, require it to be `factura` or
`boleta`, require a non-empty items list, then run the calculator with
`taxRate || 0.19` and return the amounts together with the resolved rate
and document type.  Nothing is ever written. -/
def previewTransactionCalculation (d : TxInput) :
    Except AppError (CalcResult × ℚ × String) :=
  match d.documentType with
  | none => .error .documentTypeRequired
  | some dt =>
    if ¬ (dt = "factura" ∨ dt = "boleta") then .error .invalidDocumentType
    else if d.items.isEmpty then .error .itemsRequired
    else
      let taxRate := jsOrQ d.taxRate (19/100)
      .ok (calculateTransactionAmounts d.items dt taxRate, taxRate, dt)

/-- `previewQuotationCalculation` in `quotationService.ts` — the same
function body as the shared embedding. -/
def previewQuotationCalculation : TxInput → Except AppError (CalcResult × ℚ × String) :=
  previewTransactionCalculation

/-- `previewSaleCalculation` in the sale service — the same function body
as the shared embedding. -/
def previewSaleCalculation : TxInput → Except AppError (CalcResult × ℚ × String) :=
  previewTransactionCalculation

/-- `previewPurchaseCalculation` in `purchaseService.ts` — the same
function body as the shared embedding. -/
def previewPurchaseCalculation : TxInput → Except AppError (CalcResult × ℚ × String) :=
  previewTransactionCalculation

/-- Embedding of `createQuotation` (`quotationService.ts`): validates
only the documentType (there is no empty-items check), allocates the next
correlative and `COT-` document number, computes amounts with
`taxRate || 0.19`, and inserts the quotation with default status
`pending`.  (Quotations cannot carry a `relatedQuotation`, per the
model's validator.) -/
def createQuotation (s : Store) (d : TxInput) :
    Except AppError (TransactionRec × Store) :=
  match d.documentType with
  | none => .error .documentTypeRequired
  | some dt =>
    if ¬ (dt = "factura" ∨ dt = "boleta") then .error .invalidDocumentType
    else
      let correlative := nextCorrelative s
      let documentNumber := "COT-" ++ padStart4 (toString correlative)
      let taxRate := jsOrQ d.taxRate (19/100)
      let amounts := calculateTransactionAmounts d.items dt taxRate
      let newQuotation : TransactionRec :=
        ⟨freshTransactionId s, .quotation, correlative, dt, documentNumber,
          d.counterparty, amounts.processedItems, taxRate, amounts.netAmount,
          amounts.taxAmount, amounts.totalAmount, d.status.getD .pending, none, false⟩
      .ok (newQuotation, { s with transactions := s.transactions ++ [newQuotation] })

/-- Embedding of `createSale` (sale service): like `createQuotation` but
with a `VEN-` number, default status `invoiced`, the optional
`relatedQuotation` stored on the sale, and — when `relatedQuotation` is
present — that quotation's status set to `converted` (with no status
precondition).  No empty-items check either. -/
def createSale (s : Store) (d : TxInput) :
    Except AppError (TransactionRec × Store) :=
  match d.documentType with
  | none => .error .documentTypeRequired
  | some dt =>
    if ¬ (dt = "factura" ∨ dt = "boleta") then .error .invalidDocumentType
    else
      let correlative := nextCorrelative s
      let documentNumber := "VEN-" ++ padStart4 (toString correlative)
      let taxRate := jsOrQ d.taxRate (19/100)
      let amounts := calculateTransactionAmounts d.items dt taxRate
      let newSale : TransactionRec :=
        ⟨freshTransactionId s, .sale, correlative, dt, documentNumber,
          d.counterparty, amounts.processedItems, taxRate, amounts.netAmount,
          amounts.taxAmount, amounts.totalAmount, d.status.getD .invoiced,
          d.relatedQuotation, false⟩
      let s2 : Store := { s with transactions := s.transactions ++ [newSale] }
      let s3 := match d.relatedQuotation with
        | some qid => setTransactionStatus s2 qid .converted
        | none => s2
      .ok (newSale, s3)

/-- Embedding of `createPurchase` (`purchaseService.ts`): `COM-` number,
default status `pending`, no empty-items check. -/
def createPurchase (s : Store) (d : TxInput) :
    Except AppError (TransactionRec × Store) :=
  match d.documentType with
  | none => .error .documentTypeRequired
  | some dt =>
    if ¬ (dt = "factura" ∨ dt = "boleta") then .error .invalidDocumentType
    else
      let correlative := nextCorrelative s
      let documentNumber := "COM-" ++ padStart4 (toString correlative)
      let taxRate := jsOrQ d.taxRate (19/100)
      let amounts := calculateTransactionAmounts d.items dt taxRate
      let newPurchase : TransactionRec :=
        ⟨freshTransactionId s, .purchase, correlative, dt, documentNumber,
          d.counterparty, amounts.processedItems, taxRate, amounts.netAmount,
          amounts.taxAmount, amounts.totalAmount, d.status.getD .pending, none, false⟩
      .ok (newPurchase, { s with transactions := s.transactions ++ [newPurchase] })

/-- Caller-supplied payload for updates: a field is `none` when absent
from the request body. -/
structure UpdateInput where
  documentType : Option String
  items : Option (List RawItem)
  taxRate : Option ℚ
deriving Repr, DecidableEq

/-- Embedding of `findByIdAndUpdate` replacing the whole document. -/
def replaceTransaction (s : Store) (id : Nat) (t : TransactionRec) : Store :=
  { s with transactions := s.transactions.map fun x => if x.id == id then t else x }

/-- Embedding of `updateQuotation` (`quotationService.ts`): requires a
non-deleted pending quotation; rejects an explicitly supplied
documentType outside the two recognized values; when a non-empty items
list is supplied, recomputes amounts with
`taxRate || existingTaxRate || 0.19`; otherwise applies the supplied
fields verbatim — in particular a supplied `taxRate` (zero included) is
stored as-is, and a supplied empty items list empties the stored items.
(The stored documentType is always one of the two enum values, so the
items branch's `!documentType` guard is unreachable and not modelled.) -/
def updateQuotation (s : Store) (id : Nat) (d : UpdateInput) :
    Except AppError (TransactionRec × Store) :=
  match findTransaction s .quotation id with
  | none => .error .notFound
  | some q =>
    if q.status ≠ TransactionStatus.pending then .error .invalidState
    else
      let dtOk : Bool := match d.documentType with
        | none => true
        | some dt => decide (dt = "factura" ∨ dt = "boleta")
      if dtOk = false then .error .invalidDocumentType
      else
        match d.items with
        | some (it :: rest) =>
          let dt := d.documentType.getD q.documentType
          let taxRate := jsOrQ d.taxRate (jsOrQ (some q.taxRate) (19/100))
          let amounts := calculateTransactionAmounts (it :: rest) dt taxRate
          let updated : TransactionRec :=
            { q with
              documentType := dt,
              items := amounts.processedItems,
              netAmount := amounts.netAmount,
              taxAmount := amounts.taxAmount,
              totalAmount := amounts.totalAmount,
              taxRate := taxRate }
          .ok (updated, replaceTransaction s id updated)
        | _ =>
          let updated : TransactionRec :=
            { q with
              documentType := d.documentType.getD q.documentType,
              taxRate := d.taxRate.getD q.taxRate,
              items := if d.items = some ([] : List RawItem) then [] else q.items }
          .ok (updated, replaceTransaction s id updated)

/-- Input for the C9 counterexample and witness: a recognized document
type with an empty items list. -/
def c9Input : TxInput := ⟨some "factura", [], none, 5, none, none⟩

/-- Empty store shared by the create counterexamples. -/
def emptyStore : Store := ⟨[], [], []⟩

/-- C9 (amended).  The preview operations of all three kinds reject a
missing documentType, an unrecognized documentType, and an empty items
list, before anything is written; the create operations of all three
kinds reject a missing or unrecognized documentType, but perform no
empty-items check: a create with a recognized documentType and an empty
items list succeeds, writing a record with empty items and zero
netAmount, taxAmount and totalAmount. -/
theorem preview_create_validation (s : Store) (d : TxInput) :
    (d.documentType = none →
      previewQuotationCalculation d = .error .documentTypeRequired
      ∧ previewSaleCalculation d = .error .documentTypeRequired
      ∧ previewPurchaseCalculation d = .error .documentTypeRequired
      ∧ createQuotation s d = .error .documentTypeRequired
      ∧ createSale s d = .error .documentTypeRequired
      ∧ createPurchase s d = .error .documentTypeRequired)
    ∧ (∀ dt, d.documentType = some dt → dt ≠ "factura" → dt ≠ "boleta" →
      previewQuotationCalculation d = .error .invalidDocumentType
      ∧ previewSaleCalculation d = .error .invalidDocumentType
      ∧ previewPurchaseCalculation d = .error .invalidDocumentType
      ∧ createQuotation s d = .error .invalidDocumentType
      ∧ createSale s d = .error .invalidDocumentType
      ∧ createPurchase s d = .error .invalidDocumentType)
    ∧ (∀ dt, d.documentType = some dt → (dt = "factura" ∨ dt = "boleta") →
      d.items = [] →
      previewQuotationCalculation d = .error .itemsRequired
      ∧ previewSaleCalculation d = .error .itemsRequired
      ∧ previewPurchaseCalculation d = .error .itemsRequired
      ∧ (∀ t s2, createQuotation s d = .ok (t, s2) →
          t.items = [] ∧ t.netAmount = 0 ∧ t.taxAmount = 0 ∧ t.totalAmount = 0)
      ∧ (∃ pr, createQuotation s d = .ok pr)
      ∧ (∃ pr, createSale s d = .ok pr)
      ∧ (∃ pr, createPurchase s d = .ok pr)) := by
  refine ⟨?_, ?_, ?_⟩
  · intro h
    refine ⟨?_, ?_, ?_, ?_, ?_, ?_⟩ <;>
      simp [previewQuotationCalculation, previewSaleCalculation,
        previewPurchaseCalculation, previewTransactionCalculation,
        createQuotation, createSale, createPurchase, h]
  · intro dt hdt h1 h2
    refine ⟨?_, ?_, ?_, ?_, ?_, ?_⟩ <;>
      simp [previewQuotationCalculation, previewSaleCalculation,
        previewPurchaseCalculation, previewTransactionCalculation,
        createQuotation, createSale, createPurchase, hdt, h1, h2]
  · intro dt hdt hok hempty
    have hcalc : ∀ r, calculateTransactionAmounts d.items dt r = ⟨[], 0, 0, 0⟩ := by
      intro r
      simp [calculateTransactionAmounts, hempty]
    refine ⟨?_, ?_, ?_, ?_, ?_, ?_, ?_⟩
    · simp [previewQuotationCalculation, previewTransactionCalculation, hdt, hok, hempty]
    · simp [previewSaleCalculation, previewTransactionCalculation, hdt, hok, hempty]
    · simp [previewPurchaseCalculation, previewTransactionCalculation, hdt, hok, hempty]
    · intro t s2 ht
      simp only [createQuotation, hdt] at ht
      rw [if_neg (not_not_intro hok)] at ht
      simp only [hcalc] at ht
      injection ht with ht
      injection ht with ht1 ht2
      subst ht1
      exact ⟨rfl, rfl, rfl, rfl⟩
    · cases hcq : createQuotation s d with
      | ok pr => exact ⟨pr, rfl⟩
      | error e =>
        simp only [createQuotation, hdt] at hcq
        rw [if_neg (not_not_intro hok)] at hcq
        simp at hcq
    · cases hcq : createSale s d with
      | ok pr => exact ⟨pr, rfl⟩
      | error e =>
        simp only [createSale, hdt] at hcq
        rw [if_neg (not_not_intro hok)] at hcq
        simp at hcq
    · cases hcq : createPurchase s d with
      | ok pr => exact ⟨pr, rfl⟩
      | error e =>
        simp only [createPurchase, hdt] at hcq
        rw [if_neg (not_not_intro hok)] at hcq
        simp at hcq

/-- C9 counterexample: with a recognized documentType and an empty items
list, `createQuotation` on the empty store does not fail — it writes a
quotation with empty items and all-zero amounts (while the preview
rejects the same payload). -/
theorem create_empty_items_not_rejected :
    createQuotation emptyStore c9Input
      = .ok (⟨1, .quotation, 1, "factura", "COT-0001", 5, [], 19/100,
            0, 0, 0, .pending, none, false⟩,
          ⟨[⟨1, .quotation, 1, "factura", "COT-0001", 5, [], 19/100,
            0, 0, 0, .pending, none, false⟩], [], []⟩)
    ∧ previewQuotationCalculation c9Input = .error .itemsRequired :=
  ⟨rfl, rfl⟩

/-- C9 witness: the amended theorem applied to `c9Input`: the sale
preview rejects the empty items list. -/
theorem preview_create_validation_witness :
    previewSaleCalculation c9Input = .error .itemsRequired :=
  ((preview_create_validation emptyStore c9Input).2.2 "factura" rfl
    (Or.inl rfl) rfl).2.1

/-- C10 (amended).  On create and preview (all three kinds) a supplied
`taxRate` of 0 — like an absent one — is replaced by the default 0.19,
so the computed and stored rate is never 0 (it is 0.19 or the caller's
nonzero value); on update with a non-empty items list a zero rate falls
back to the existing rate and then 0.19; but on update **without** items
a caller-supplied `taxRate` of 0 is stored verbatim, so a stored
transaction can end up with a zero tax rate. -/
theorem taxrate_resolution_characterized (s : Store) (d : TxInput) :
    (∀ r, d.taxRate = some r → r ≠ 0 → jsOrQ d.taxRate (19/100) = r)
    ∧ (d.taxRate = some 0 ∨ d.taxRate = none → jsOrQ d.taxRate (19/100) = 19/100)
    ∧ jsOrQ d.taxRate (19/100) ≠ 0
    ∧ (∀ t s2, createQuotation s d = .ok (t, s2) →
        t.taxRate = jsOrQ d.taxRate (19/100))
    ∧ (∀ t s2, createSale s d = .ok (t, s2) →
        t.taxRate = jsOrQ d.taxRate (19/100))
    ∧ (∀ t s2, createPurchase s d = .ok (t, s2) →
        t.taxRate = jsOrQ d.taxRate (19/100))
    ∧ (∀ pr, previewTransactionCalculation d = .ok pr →
        pr.2.1 = jsOrQ d.taxRate (19/100))
    ∧ (∀ id q, findTransaction s .quotation id = some q → q.status = .pending →
        ∃ t s2, updateQuotation s id ⟨none, none, some 0⟩ = .ok (t, s2)
          ∧ t.taxRate = 0) := by
  have hne : jsOrQ d.taxRate (19/100) ≠ 0 := by
    cases hdt : d.taxRate with
    | none =>
      simp only [jsOrQ]
      norm_num
    | some r =>
      by_cases hr : r = 0
      · simp only [jsOrQ, hr, if_pos]
        norm_num
      · simp only [jsOrQ, if_neg hr]
        exact hr
  refine ⟨?_, ?_, hne, ?_, ?_, ?_, ?_, ?_⟩
  · intro r hr hr0
    simp [jsOrQ, hr, hr0]
  · intro h
    rcases h with h | h <;> simp [jsOrQ, h]
  · intro t s2 ht
    cases hdt : d.documentType with
    | none => simp [createQuotation, hdt] at ht
    | some dt =>
      by_cases hv : dt = "factura" ∨ dt = "boleta"
      · simp only [createQuotation, hdt] at ht
        rw [if_neg (not_not_intro hv)] at ht
        injection ht with ht
        injection ht with ht1 ht2
        subst ht1
        rfl
      · simp [createQuotation, hdt, hv] at ht
  · intro t s2 ht
    cases hdt : d.documentType with
    | none => simp [createSale, hdt] at ht
    | some dt =>
      by_cases hv : dt = "factura" ∨ dt = "boleta"
      · simp only [createSale, hdt] at ht
        rw [if_neg (not_not_intro hv)] at ht
        injection ht with ht
        injection ht with ht1 ht2
        subst ht1
        rfl
      · simp [createSale, hdt, hv] at ht
  · intro t s2 ht
    cases hdt : d.documentType with
    | none => simp [createPurchase, hdt] at ht
    | some dt =>
      by_cases hv : dt = "factura" ∨ dt = "boleta"
      · simp only [createPurchase, hdt] at ht
        rw [if_neg (not_not_intro hv)] at ht
        injection ht with ht
        injection ht with ht1 ht2
        subst ht1
        rfl
      · simp [createPurchase, hdt, hv] at ht
  · intro pr hpr
    cases hdt : d.documentType with
    | none => simp [previewTransactionCalculation, hdt] at hpr
    | some dt =>
      by_cases hv : dt = "factura" ∨ dt = "boleta"
      · by_cases hempty : d.items.isEmpty
        · simp [previewTransactionCalculation, hdt, hv, hempty] at hpr
        · simp only [previewTransactionCalculation, hdt] at hpr
          rw [if_neg (not_not_intro hv), if_neg hempty] at hpr
          injection hpr with hpr
          subst hpr
          rfl
      · simp [previewTransactionCalculation, hdt, hv] at hpr
  · intro id q hq hpending
    refine ⟨{ q with taxRate := 0 }, replaceTransaction s id { q with taxRate := 0 }, ?_, rfl⟩
    simp only [updateQuotation, hq]
    rw [if_neg (by simp [hpending])]
    rfl

/-- Store for the C10 counterexample: one pending quotation with tax
rate 0.19. -/
def c10Store : Store :=
  ⟨[⟨1, .quotation, 1, "factura", "COT-0001", 5, [], 19/100, 0, 0, 0,
      .pending, none, false⟩], [], []⟩

/-- C10 counterexample: updating the pending quotation of `c10Store`
with `taxRate: 0` and no items stores the zero rate verbatim — the
resulting transaction has `taxRate = 0`, contradicting the claim that a
zero rate is always silently replaced by 0.19. -/
theorem update_zero_taxrate_stored :
    updateQuotation c10Store 1 ⟨none, none, some 0⟩
      = .ok (⟨1, .quotation, 1, "factura", "COT-0001", 5, [], 0, 0, 0, 0,
            .pending, none, false⟩,
          ⟨[⟨1, .quotation, 1, "factura", "COT-0001", 5, [], 0, 0, 0, 0,
            .pending, none, false⟩], [], []⟩) :=
  rfl

/-- C10 witness: the amended theorem applied to a payload carrying
`taxRate: 0`: the resolved rate is the default 0.19. -/
theorem taxrate_resolution_witness :
    jsOrQ (TxInput.taxRate ⟨some "factura", [], some 0, 5, none, none⟩) (19/100)
      = 19/100 :=
  (taxrate_resolution_characterized emptyStore
    ⟨some "factura", [], some 0, 5, none, none⟩).2.1 (Or.inl rfl)

end Fungus
